import Mathlib

/-!
Shallow embedding of the roadside house-layout engine of this repository
(class `HouseGenerator` in `src/js/house-generator.js`).

Numbers are rationals.  The external turf.js and JS-Math primitives
(`turf.distance`, `turf.bearing`, `turf.along`, `turf.destination`,
`turf.polygon`, `turf.buffer`, `turf.booleanIntersects`, `Math.sqrt`,
`Math.atan2`) are modelled as fields of an abstract `Geo` structure; the
fallible constructors return `Option`, a `none` modelling a thrown turf
exception.  `Math.random()` draws are modelled by injected index streams,
one stream per (road, side) invocation of the selection loop; this is a
reindexing of the single ambient unseeded stream the JS consumes
sequentially.  The unbounded `while (true)` template-selection loop is
modelled with explicit fuel: with the default positive spacing the JS loop
terminates, and every theorem below either holds for all fuels or fixes a
concrete fuel large enough for the scenario at hand.
-/

namespace HouseGen

abbrev Pt : Type := ℚ × ℚ

/-- Abstract model of the external turf.js / Math primitives used by the
generator.  `polygonM` and `bufferM` return `none` when the corresponding
turf call would throw.  The JS converts meters to kilometers before calling
turf and back after; distances here are kept in meters throughout, which is
the same net computation. -/
structure Geo where
  dist : Pt → Pt → ℚ
  bearing : Pt → Pt → ℚ
  along : Pt → Pt → ℚ → Pt
  destination : Pt → ℚ → ℚ → Pt
  sqrtQ : ℚ → ℚ
  atan2deg : ℚ → ℚ → ℚ
  polygonM : List Pt → Option (List Pt)
  bufferM : List Pt → ℚ → Option (List Pt)
  intersectsB : List Pt → List Pt → Bool

structure Bounds where
  minX : ℚ
  minY : ℚ
  maxX : ℚ
  maxY : ℚ
deriving DecidableEq

structure HouseType where
  type : ℕ
  width : ℚ
  length : ℚ
  geometry : List Pt
  color : String
  bounds : Bounds
deriving DecidableEq

inductive GeoGeometry where
  | lineString (coords : List Pt)
  | polygon (rings : List (List Pt))
  | other
deriving DecidableEq

structure GeoFeature where
  geometry : GeoGeometry
deriving DecidableEq

structure GeoJSONDoc where
  features : List GeoFeature
deriving DecidableEq

structure RoadFeature where
  geometry : GeoGeometry
  layer : Option String
deriving DecidableEq

/-- Return value of `interpolatePositionAtDistance` in the source. -/
structure InterpPoint where
  lng : ℚ
  lat : ℚ
  bearing : ℚ
  houseAngle : ℚ
deriving DecidableEq

/-- Elements of the array built by `calculateHousePositions`:
the interpolated point spread together with side, distance, houseType
and slot index. -/
structure HousePosition where
  lng : ℚ
  lat : ℚ
  bearing : ℚ
  houseAngle : ℚ
  side : String
  distance : ℚ
  houseType : HouseType
  index : ℕ
deriving DecidableEq

/-- The house object built by `createHouseAtPosition`. -/
structure House where
  id : String
  type : ℕ
  color : String
  lng : ℚ
  lat : ℚ
  bearing : ℚ
  width : ℚ
  length : ℚ
  geometry : List Pt
  originalGeometry : List Pt
  roadIndex : ℕ
  houseIndex : String
  side : String
deriving DecidableEq

/-- The mutable fields of the `HouseGenerator` class, passed explicitly. -/
structure GenState where
  houseTypes : List HouseType
  roads : List RoadFeature
  allRoadGeometries : List RoadFeature
  generatedHouses : List House
  edgeSpacing : ℚ
  roadOffset : ℚ
deriving DecidableEq

structure GenOptions where
  edgeSpacing : Option ℚ
  roadOffset : Option ℚ
deriving DecidableEq

/-- `this.typeColors[typeId] || '#888888'` from the constructor. -/
def typeColors (typeId : ℕ) : String :=
  if typeId = 1 then "#ff4444"
  else if typeId = 2 then "#44ff44"
  else if typeId = 3 then "#4444ff"
  else "#888888"

/-- `calculateBounds`.  The JS folds from infinities; on the (never
exercised) empty list the JS would yield infinite bounds, modelled here by
a zero box. -/
def calculateBounds : List Pt → Bounds
  | [] => { minX := 0, minY := 0, maxX := 0, maxY := 0 }
  | p :: rest =>
      rest.foldl
        (fun b q =>
          { minX := min b.minX q.1, minY := min b.minY q.2,
            maxX := max b.maxX q.1, maxY := max b.maxY q.2 })
        { minX := p.1, minY := p.2, maxX := p.1, maxY := p.2 }

/-- `normalizeHouseGeometry`: center horizontally at X=0, front edge at
Y=0. -/
def normalizeHouseGeometry (coordinates : List Pt) (bounds : Bounds) : List Pt :=
  let centerX := (bounds.minX + bounds.maxX) / 2
  let frontY := bounds.minY
  coordinates.map fun p => (p.1 - centerX, p.2 - frontY)

/-- `createFallbackHouse`.  `widths[typeId-1] || 8` keeps 8/12/6 for ids
1..3 and 8 otherwise (same for lengths with 10/8/14 and 10). -/
def createFallbackHouse (typeId : ℕ) : HouseType :=
  let width : ℚ := if typeId = 1 then 8 else if typeId = 2 then 12 else if typeId = 3 then 6 else 8
  let length : ℚ := if typeId = 1 then 10 else if typeId = 2 then 8 else if typeId = 3 then 14 else 10
  { type := typeId, width := width, length := length,
    geometry := [(0, 0), (width, 0), (width, length), (0, length), (0, 0)],
    color := typeColors typeId,
    bounds := { minX := 0, minY := 0, maxX := width, maxY := length } }

/-- The LineString closing step of `parseHouseGeoJSON`: append a copy of
the first point when first and last differ. -/
def closeIfOpen (coords : List Pt) : List Pt :=
  match coords.head?, coords.getLast? with
  | some f, some l => if f.1 ≠ l.1 ∨ f.2 ≠ l.2 then coords ++ [f] else coords
  | _, _ => coords

/-- The tail of `parseHouseGeoJSON` once the outline coordinates are
extracted: bounds, width/length, normalized geometry. -/
def houseFromCoordinates (typeId : ℕ) (coordinates : List Pt) : HouseType :=
  let bounds := calculateBounds coordinates
  let width := bounds.maxX - bounds.minX
  let length := bounds.maxY - bounds.minY
  { type := typeId, width := width, length := length,
    geometry := normalizeHouseGeometry coordinates bounds,
    color := typeColors typeId, bounds := bounds }

/-- `parseHouseGeoJSON`: first feature's LineString (closed if needed) or
Polygon exterior ring; fallback house when there is no feature or the
geometry type is unsupported. -/
def parseHouseGeoJSON (geojson : GeoJSONDoc) (typeId : ℕ) : HouseType :=
  match geojson.features.head? with
  | none => createFallbackHouse typeId
  | some houseFeature =>
      match houseFeature.geometry with
      | GeoGeometry.lineString cs => houseFromCoordinates typeId (closeIfOpen cs)
      | GeoGeometry.polygon rings => houseFromCoordinates typeId (rings.getD 0 [])
      | GeoGeometry.other => createFallbackHouse typeId

def isLineString : GeoGeometry → Bool
  | GeoGeometry.lineString _ => true
  | _ => false

def lineCoords : GeoGeometry → List Pt
  | GeoGeometry.lineString cs => cs
  | _ => []

/-- `calculateRoadLength`: sum of the pairwise turf distances. -/
def calculateRoadLength (T : Geo) (coords : List Pt) : ℚ :=
  (coords.zip (coords.drop 1)).foldl (fun acc pq => acc + T.dist pq.1 pq.2) 0

/-- The `cumulativeDistances` array of `calculateHousePositions`:
`[0, d01, d01+d12, ...]`. -/
def cumulativeDistancesOf (T : Geo) (coords : List Pt) : List ℚ :=
  (coords.zip (coords.drop 1)).scanl (fun acc pq => acc + T.dist pq.1 pq.2) 0

/-- The segment-search loop of `interpolatePositionAtDistance`: scan
indices 1, 2, ... and return the first whose cumulative distance is ≥ the
target. -/
def segSearch (target : ℚ) : List ℚ → ℕ → Option ℕ
  | [], _ => none
  | c :: rest, i => if target ≤ c then some i else segSearch target rest (i + 1)

/-- `segmentIndex` as computed by the JS loop: index before the first
break, or 0 when the loop never breaks. -/
def segmentIndexOf (cum : List ℚ) (target : ℚ) : ℕ :=
  match segSearch target (cum.drop 1) 1 with
  | some i => i - 1
  | none => 0

/-- `interpolatePositionAtDistance`. -/
def interpolatePositionAtDistance (T : Geo) (coords : List Pt) (cum : List ℚ)
    (targetDistance : ℚ) : Option InterpPoint :=
  let segmentIndex := segmentIndexOf cum targetDistance
  if coords.length - 1 ≤ segmentIndex then none
  else
    let segmentStart := cum.getD segmentIndex 0
    let segmentEnd := cum.getD (segmentIndex + 1) 0
    let segmentLength := segmentEnd - segmentStart
    let p := coords.getD segmentIndex (0, 0)
    if segmentLength = 0 then
      let nextPoint := coords.getD (min (segmentIndex + 1) (coords.length - 1)) (0, 0)
      let bearing := T.bearing p nextPoint
      some { lng := p.1, lat := p.2, bearing := bearing, houseAngle := bearing + 90 }
    else
      let distanceIntoSegment := targetDistance - segmentStart
      let q := coords.getD (segmentIndex + 1) (0, 0)
      let interpolatedPoint := T.along p q distanceIntoSegment
      let bearing := T.bearing p q
      some { lng := interpolatedPoint.1, lat := interpolatedPoint.2,
             bearing := bearing, houseAngle := bearing + 90 }

/-- The `while (true)` template-drawing loop of `calculateHousePositions`.
Each iteration draws `houseTypes[rand k % length]` (the JS draws
`Math.floor(Math.random() * length)`, always an in-range index for a
non-empty catalog; on an empty catalog the JS would throw on an undefined
access, modelled by the fallback default — theorems assume a non-empty
catalog).  It breaks as soon as `totalWidthNeeded + width > availableLength`
and otherwise accepts the draw and advances by `width + edgeSpacing`.
`fuel` bounds the unbounded JS loop. -/
def drawLoop (houseTypes : List HouseType) (edgeSpacing availableLength : ℚ)
    (rand : ℕ → ℕ) : ℕ → ℕ → ℚ → List HouseType
  | 0, _, _ => []
  | fuel + 1, k, totalWidthNeeded =>
      let houseTypeIndex := rand k % houseTypes.length
      let houseType := houseTypes.getD houseTypeIndex (createFallbackHouse 1)
      if availableLength < totalWidthNeeded + houseType.width then []
      else
        houseType ::
          drawLoop houseTypes edgeSpacing availableLength rand fuel (k + 1)
            (totalWidthNeeded + houseType.width + edgeSpacing)

/-- The placement walk of `calculateHousePositions`: starting 5 m in,
interpolate at the running distance, keep non-null positions, and advance
by `width + edgeSpacing`; the slot index advances even for dropped
positions. -/
def placeLoop (T : Geo) (coords : List Pt) (cum : List ℚ) (edgeSpacing : ℚ)
    (side : String) : List HouseType → ℚ → ℕ → List HousePosition
  | [], _, _ => []
  | houseType :: rest, currentDistance, index =>
      match interpolatePositionAtDistance T coords cum currentDistance with
      | some p =>
          { lng := p.lng, lat := p.lat, bearing := p.bearing,
            houseAngle := p.houseAngle, side := side,
            distance := currentDistance, houseType := houseType,
            index := index } ::
            placeLoop T coords cum edgeSpacing side rest
              (currentDistance + houseType.width + edgeSpacing) (index + 1)
      | none =>
          placeLoop T coords cum edgeSpacing side rest
            (currentDistance + houseType.width + edgeSpacing) (index + 1)

/-- `calculateHousePositions`:  `availableLength = roadLength - 10`
(5 m clearance at each end), greedy random template selection, then exact
spacing starting at 5 m. -/
def calculateHousePositions (T : Geo) (houseTypes : List HouseType)
    (edgeSpacing : ℚ) (fuel : ℕ) (rand : ℕ → ℕ) (coords : List Pt)
    (roadLength : ℚ) (side : String) : List HousePosition :=
  let cumulativeDistances := cumulativeDistancesOf T coords
  let availableLength := roadLength - 10
  let tempHouses := drawLoop houseTypes edgeSpacing availableLength rand fuel 0 0
  placeLoop T coords cumulativeDistances edgeSpacing side tempHouses 5 0

/-- `transformHouseGeometryGeo`: local meters to world coordinates via
distance/bearing from the center (the JS km conversion cancels out). -/
def transformHouseGeometryGeo (T : Geo) (geometry : List Pt)
    (centerLng centerLat : ℚ) (bearing : ℚ) : List Pt :=
  geometry.map fun lp =>
    let distance := T.sqrtQ (lp.1 * lp.1 + lp.2 * lp.2)
    let localBearing := T.atan2deg lp.1 lp.2
    let worldBearing := bearing + localBearing
    if 0 < distance then T.destination (centerLng, centerLat) distance worldBearing
    else (centerLng, centerLat)

/-- `createHouseAtPosition`. -/
def createHouseAtPosition (T : Geo) (roadOffset : ℚ) (position : HousePosition)
    (houseType : HouseType) (roadIndex : ℕ) (houseIndex : String)
    (sideMultiplier : Int) : House :=
  let roadPoint : Pt := (position.lng, position.lat)
  let offsetBearing := position.houseAngle + (if 0 < sideMultiplier then 0 else 180)
  let offsetPoint := T.destination roadPoint roadOffset offsetBearing
  let houseOrientation := position.bearing + (if 0 < sideMultiplier then 90 else -90)
  let worldGeometry :=
    transformHouseGeometryGeo T houseType.geometry offsetPoint.1 offsetPoint.2
      houseOrientation
  { id := "house_" ++ toString roadIndex ++ "_" ++ houseIndex,
    type := houseType.type, color := houseType.color,
    lng := offsetPoint.1, lat := offsetPoint.2,
    bearing := houseOrientation,
    width := houseType.width, length := houseType.length,
    geometry := worldGeometry, originalGeometry := houseType.geometry,
    roadIndex := roadIndex, houseIndex := houseIndex,
    side := if 0 < sideMultiplier then "right" else "left" }

/-- Buffer width by road class in `checkHouseRoadCollision`.  The JS
guard `road.properties && road.properties.Layer` treats a missing (or
empty, hence falsy) Layer as the default. -/
def roadBufferMeters (defaultBufferMeters : ℚ) (layer : Option String) : ℚ :=
  match layer with
  | none => defaultBufferMeters
  | some l =>
      if l = "" then defaultBufferMeters
      else if l = "ROAD_PRIMARY" then 8
      else if l = "ROAD_SECONDARY" then 6
      else if l = "ROAD_TERTIARY" then 4
      else defaultBufferMeters

/-- House-polygon construction in `checkHouseRoadCollision`:
`turf.polygon([[...house.geometry, house.geometry[0]]])`; on an empty
geometry the JS indexes `undefined` and turf throws, hence `none`. -/
def housePolygonOf (T : Geo) (house : House) : Option (List Pt) :=
  match house.geometry.head? with
  | none => none
  | some h0 => T.polygonM (house.geometry ++ [h0])

/-- The per-road loop of `checkHouseRoadCollision`: skip the excluded
index, otherwise buffer the road (an inner exception skips just that road)
and report a collision as soon as one buffered road intersects. -/
def checkRoadsLoop (T : Geo) (housePolygon : List Pt) (defaultBufferMeters : ℚ)
    (excludeRoadIndex : Int) : List RoadFeature → ℕ → Bool
  | [], _ => false
  | road :: rest, i =>
      if (i : Int) = excludeRoadIndex then
        checkRoadsLoop T housePolygon defaultBufferMeters excludeRoadIndex rest (i + 1)
      else
        match T.bufferM (lineCoords road.geometry)
            (roadBufferMeters defaultBufferMeters road.layer) with
        | none => checkRoadsLoop T housePolygon defaultBufferMeters excludeRoadIndex rest (i + 1)
        | some roadBuffer =>
            if T.intersectsB housePolygon roadBuffer then true
            else checkRoadsLoop T housePolygon defaultBufferMeters excludeRoadIndex rest (i + 1)

/-- `checkHouseRoadCollision`: false on an empty road set; false when the
house polygon cannot be built (outer catch); otherwise the per-road loop. -/
def checkHouseRoadCollision (T : Geo) (allRoadGeometries : List RoadFeature)
    (house : House) (defaultBufferMeters : ℚ) (excludeRoadIndex : Int) : Bool :=
  if allRoadGeometries.isEmpty then false
  else
    match housePolygonOf T house with
    | none => false
    | some housePolygon =>
        checkRoadsLoop T housePolygon defaultBufferMeters excludeRoadIndex
          allRoadGeometries 0

/-- `generateHousesAlongRoad`: both sides, positions from
`calculateHousePositions`, a house per surviving position, collision
checked with a 6 m default buffer excluding the current road. -/
def generateHousesAlongRoad (T : Geo) (st : GenState) (fuel : ℕ)
    (road : RoadFeature) (roadIndex : ℕ) (rand : String → ℕ → ℕ) : List House :=
  let coordinates := lineCoords road.geometry
  if coordinates.length < 2 then []
  else
    let roadLength := calculateRoadLength T coordinates
    (["left", "right"]).flatMap fun side =>
      let sideMultiplier : Int := if side = "left" then -1 else 1
      let positions :=
        calculateHousePositions T st.houseTypes st.edgeSpacing fuel (rand side)
          coordinates roadLength side
      positions.filterMap fun position =>
        let house :=
          createHouseAtPosition T st.roadOffset position position.houseType
            roadIndex (side ++ "_" ++ toString position.index) sideMultiplier
        if checkHouseRoadCollision T st.allRoadGeometries house 6 (roadIndex : Int)
        then none else some house

/-- `setRoads`: keep only LineString features, for both `roads` and
`allRoadGeometries`. -/
def setRoads (st : GenState) (roadFeatures : List RoadFeature) : GenState :=
  { st with
    roads := roadFeatures.filter fun f => isLineString f.geometry,
    allRoadGeometries := roadFeatures.filter fun f => isLineString f.geometry }

/-- The three fallback house types: the result of `loadHouseTypes` when
every fetch fails.  The network success path is external I/O and is not
modelled; under the spec the catalog loader substitutes this rectangular
fallback on load failure. -/
def fallbackCatalog : List HouseType :=
  [createFallbackHouse 1, createFallbackHouse 2, createFallbackHouse 3]

/-- `generateHouses`: load house types if the catalog is empty (modelled
by the fetch-failure branch of `loadHouseTypes`), reset `generatedHouses`
to the empty list, then one pass of `generateHousesAlongRoad` per road,
collected into `generatedHouses`. -/
def generateHouses (T : Geo) (fuel : ℕ) (st : GenState)
    (rand : ℕ → String → ℕ → ℕ) : GenState × List House :=
  let loaded := if st.houseTypes.isEmpty then fallbackCatalog else st.houseTypes
  let st1 := { st with
    houseTypes := loaded
    generatedHouses := [] }
  let generated :=
    st1.roads.enum.flatMap fun ir =>
      generateHousesAlongRoad T st1 fuel ir.2 ir.1 (rand ir.1)
  ({ st1 with generatedHouses := generated }, generated)

/-- JS `options.x || default`: a missing or zero (falsy) value yields the
default. -/
def jsOrDefault (v : Option ℚ) (d : ℚ) : ℚ :=
  match v with
  | none => d
  | some x => if x = 0 then d else x

/-- GeoJSON feature emitted for one generated house by
`generateHousesAlongRoads`. -/
structure HouseFeature where
  id : String
  houseType : ℕ
  color : String
  width : ℚ
  length : ℚ
  roadIndex : ℕ
  houseIndex : String
  height : ℚ
  rings : List (List Pt)
deriving DecidableEq

def houseToFeature (house : House) : HouseFeature :=
  { id := house.id, houseType := house.type, color := house.color,
    width := house.width, length := house.length,
    roadIndex := house.roadIndex, houseIndex := house.houseIndex,
    height := 4, rings := [house.geometry] }

/-- `generateHousesAlongRoads`: set options (with JS `||` defaulting), set
roads, generate, and convert to features. -/
def generateHousesAlongRoads (T : Geo) (fuel : ℕ) (st : GenState)
    (roads : List RoadFeature) (options : GenOptions)
    (rand : ℕ → String → ℕ → ℕ) : GenState × List HouseFeature :=
  let st1 := { st with
    edgeSpacing := jsOrDefault options.edgeSpacing 5,
    roadOffset := jsOrDefault options.roadOffset 10 }
  let st2 := setRoads st1 roads
  let r := generateHouses T fuel st2 rand
  (r.1, r.2.map houseToFeature)

/-- The constructor state of `HouseGenerator`. -/
def initState : GenState :=
  { houseTypes := [], roads := [], allRoadGeometries := [],
    generatedHouses := [], edgeSpacing := 5, roadOffset := 10 }

/-! ### A concrete rational instantiation of the external primitives

Used to evaluate the engine on concrete scenarios.  It is exact for the
axis-aligned roads the scenarios use: distance is the taxicab metric
(which agrees with the geodesic distance on axis-aligned segments, scaled
to meters), bearing is the compass bearing for axis-aligned directions,
`destination` moves along the four cardinal bearings.  `sqrtQ`/`atan2deg`
are rational stand-ins; no scenario property depends on them. -/

def flatDist (p q : Pt) : ℚ := |q.1 - p.1| + |q.2 - p.2|

def flatBearing (p q : Pt) : ℚ :=
  if p.1 < q.1 then 90
  else if q.1 < p.1 then -90
  else if p.2 < q.2 then 0
  else if q.2 < p.2 then 180
  else 0

def flatAlong (p q : Pt) (d : ℚ) : Pt :=
  let len := flatDist p q
  if len = 0 then p
  else
    let t := min (max (d / len) 0) 1
    (p.1 + t * (q.1 - p.1), p.2 + t * (q.2 - p.2))

def norm360 (b : ℚ) : ℚ :=
  if b < 0 then b + 360 else if 360 ≤ b then b - 360 else b

def flatDestination (c : Pt) (d : ℚ) (b : ℚ) : Pt :=
  let bn := norm360 (norm360 b)
  if bn = 0 then (c.1, c.2 + d)
  else if bn = 90 then (c.1 + d, c.2)
  else if bn = 180 then (c.1, c.2 - d)
  else if bn = 270 then (c.1 - d, c.2)
  else c

def flatAtan2deg (x y : ℚ) : ℚ :=
  if x = 0 ∧ y = 0 then 0
  else if y = 0 then (if 0 < x then 90 else -90)
  else if x = 0 then (if 0 < y then 0 else 180)
  else 45

def flatGeo : Geo :=
  { dist := flatDist, bearing := flatBearing, along := flatAlong,
    destination := flatDestination, sqrtQ := fun q => q,
    atan2deg := flatAtan2deg,
    polygonM := fun ring => some ring,
    bufferM := fun coords _ => some coords,
    intersectsB := fun _ _ => false }

/-! ### Concrete scenario data -/

/-- An 8 m × 10 m rectangular outline supplied as an open LineString
GeoJSON feature (spec Scenario 1's single template). -/
def gjRect8x10 : GeoJSONDoc :=
  { features := [{ geometry := GeoGeometry.lineString [(0, 0), (8, 0), (8, 10), (0, 10)] }] }

/-- The width-8 template parsed from `gjRect8x10`; its normalized geometry
spans local X ∈ [-4, 4]. -/
def houseA : HouseType := parseHouseGeoJSON gjRect8x10 1

/-- A 12 m × 8 m rectangular template (valid, wider than `houseA`). -/
def gjRect12x8 : GeoJSONDoc :=
  { features := [{ geometry := GeoGeometry.lineString [(0, 0), (12, 0), (12, 8), (0, 8)] }] }

def houseC : HouseType := parseHouseGeoJSON gjRect12x8 2

/-- A degenerate template whose outline has zero horizontal extent: its
parsed width is 0 (a malformed template in the sense of the spec). -/
def gjZeroWidth : GeoJSONDoc :=
  { features := [{ geometry := GeoGeometry.lineString [(3, 0), (3, 10)] }] }

def houseZero : HouseType := parseHouseGeoJSON gjZeroWidth 3

/-- Straight 100 m road (flat model): two points 100 apart. -/
def road100 : RoadFeature :=
  { geometry := GeoGeometry.lineString [(0, 0), (100, 0)], layer := none }

/-- Straight 200 m road. -/
def road200 : RoadFeature :=
  { geometry := GeoGeometry.lineString [(0, 0), (200, 0)], layer := none }

/-- Scenario 1 positions (left side): single `houseA` catalog, spacing 5,
100 m road, any draws (constant stream), fuel 20. -/
def scenario1Left : List HousePosition :=
  calculateHousePositions flatGeo [houseA] 5 20 (fun _ => 0) [(0, 0), (100, 0)] 100 "left"

def scenario1Right : List HousePosition :=
  calculateHousePositions flatGeo [houseA] 5 20 (fun _ => 0) [(0, 0), (100, 0)] 100 "right"

/-- Alternating draws from a two-template catalog [houseA (8 m), houseC
(12 m)] on a 200 m road: the second slot is wider than the first. -/
def altPositions : List HousePosition :=
  calculateHousePositions flatGeo [houseA, houseC] 5 20 (fun k => k) [(0, 0), (200, 0)] 200 "left"

def dummyPos : HousePosition :=
  { lng := 0, lat := 0, bearing := 0, houseAngle := 0, side := "",
    distance := 0, houseType := createFallbackHouse 1, index := 0 }

def dummyHouse : House :=
  { id := "", type := 0, color := "", lng := 0, lat := 0, bearing := 0,
    width := 0, length := 0, geometry := [], originalGeometry := [],
    roadIndex := 0, houseIndex := "", side := "" }

def emptyRoadFeature : RoadFeature :=
  { geometry := GeoGeometry.lineString [], layer := none }

/-! ### Invariants of the greedy selection and placement loops -/

/-- Budget invariant of the drawn template sequence: starting from a
consumed budget `total`, each successive template fits within
`availableLength` counting all widths and the internal spacings before it,
and the consumed budget then advances by `width + edgeSpacing`. -/
def chainFits (edgeSpacing availableLength : ℚ) : ℚ → List HouseType → Prop
  | _, [] => True
  | total, h :: rest =>
      total + h.width ≤ availableLength ∧
        chainFits edgeSpacing availableLength (total + h.width + edgeSpacing) rest

theorem drawLoop_chainFits (houseTypes : List HouseType) (s avail : ℚ)
    (rand : ℕ → ℕ) :
    ∀ (fuel k : ℕ) (total : ℚ),
      chainFits s avail total (drawLoop houseTypes s avail rand fuel k total) := by
  intro fuel
  induction fuel with
  | zero => intro k total; simp only [drawLoop, chainFits]
  | succ n ih =>
      intro k total
      rw [drawLoop]
      split
      · simp only [chainFits]
      · rename_i hfit
        exact ⟨le_of_not_lt hfit, ih (k + 1) _⟩

theorem drawLoop_mem (houseTypes : List HouseType) (s avail : ℚ) (rand : ℕ → ℕ)
    (hne : houseTypes ≠ []) :
    ∀ (fuel k : ℕ) (total : ℚ) (h : HouseType),
      h ∈ drawLoop houseTypes s avail rand fuel k total → h ∈ houseTypes := by
  intro fuel
  induction fuel with
  | zero => intro k total h hmem; simp [drawLoop] at hmem
  | succ n ih =>
      intro k total h hmem
      rw [drawLoop] at hmem
      split at hmem
      · simp at hmem
      · rcases List.mem_cons.mp hmem with rfl | hmem2
        · have hlt : rand k % houseTypes.length < houseTypes.length :=
            Nat.mod_lt _ (List.length_pos.mpr hne)
          rw [List.getD_eq_getElem _ _ hlt]
          exact List.getElem_mem hlt
        · exact ih (k + 1) _ h hmem2

/-- Every drawn template has positive width when all catalog templates do
(the out-of-range fallback used to model the JS undefined access has
width 8). -/
theorem drawn_width_pos (houseTypes : List HouseType)
    (hw : ∀ h ∈ houseTypes, 0 < h.width) (idx : ℕ) :
    0 < (houseTypes.getD idx (createFallbackHouse 1)).width := by
  by_cases hidx : idx < houseTypes.length
  · rw [List.getD_eq_getElem _ _ hidx]
    exact hw _ (List.getElem_mem hidx)
  · rw [List.getD_eq_default _ _ (le_of_not_lt hidx)]
    show (0 : ℚ) < 8
    norm_num

theorem drawLoop_nil_of_nonpos (houseTypes : List HouseType) (s avail : ℚ)
    (rand : ℕ → ℕ) (havail : avail ≤ 0)
    (hw : ∀ h ∈ houseTypes, 0 < h.width) :
    ∀ (fuel k : ℕ) (total : ℚ), 0 ≤ total →
      drawLoop houseTypes s avail rand fuel k total = [] := by
  intro fuel
  cases fuel with
  | zero => intro k total _; rfl
  | succ n =>
      intro k total htotal
      rw [drawLoop]
      rw [if_pos]
      have := drawn_width_pos houseTypes hw (rand k % houseTypes.length)
      linarith

theorem placeLoop_le (T : Geo) (coords : List Pt) (cum : List ℚ) (s : ℚ)
    (side : String) (hs : 0 ≤ s) :
    ∀ (hts : List HouseType) (cur : ℚ) (idx : ℕ),
      (∀ h ∈ hts, 0 ≤ h.width) →
      ∀ p ∈ placeLoop T coords cum s side hts cur idx, cur ≤ p.distance := by
  intro hts
  induction hts with
  | nil => intro cur idx _ p hp; simp [placeLoop] at hp
  | cons ht rest ih =>
      intro cur idx hw p hp
      rw [placeLoop] at hp
      have hw0 : 0 ≤ ht.width := hw ht (List.mem_cons_self ht rest)
      have hwr : ∀ h ∈ rest, 0 ≤ h.width :=
        fun h hh => hw h (List.mem_cons_of_mem _ hh)
      have hstep : ∀ q ∈ placeLoop T coords cum s side rest (cur + ht.width + s) (idx + 1),
          cur ≤ q.distance := by
        intro q hq
        have := ih (cur + ht.width + s) (idx + 1) hwr q hq
        linarith
      cases hI : interpolatePositionAtDistance T coords cum cur with
      | some ipt =>
          rw [hI] at hp
          rcases List.mem_cons.mp hp with rfl | hp2
          · exact le_refl _
          · exact hstep p hp2
      | none =>
          rw [hI] at hp
          exact hstep p hp

theorem placeLoop_chain (T : Geo) (coords : List Pt) (cum : List ℚ) (s : ℚ)
    (side : String) (hs : 0 ≤ s) :
    ∀ (hts : List HouseType) (cur : ℚ) (idx : ℕ),
      (∀ h ∈ hts, 0 ≤ h.width) →
      List.Chain'
        (fun p q : HousePosition => p.houseType.width + s ≤ q.distance - p.distance)
        (placeLoop T coords cum s side hts cur idx) := by
  intro hts
  induction hts with
  | nil => intro cur idx _; simp [placeLoop]
  | cons ht rest ih =>
      intro cur idx hw
      have hwr : ∀ h ∈ rest, 0 ≤ h.width :=
        fun h hh => hw h (List.mem_cons_of_mem _ hh)
      rw [placeLoop]
      cases hI : interpolatePositionAtDistance T coords cum cur with
      | none => exact ih _ _ hwr
      | some ipt =>
          rw [List.chain'_cons']
          refine ⟨?_, ih _ _ hwr⟩
          intro b hb
          have hbmem := List.mem_of_mem_head? hb
          have := placeLoop_le T coords cum s side hs rest (cur + ht.width + s)
            (idx + 1) hwr b hbmem
          show ht.width + s ≤ b.distance - cur
          linarith

theorem placeLoop_bounds (T : Geo) (coords : List Pt) (cum : List ℚ) (s : ℚ)
    (side : String) (avail : ℚ) (hs : 0 ≤ s) :
    ∀ (hts : List HouseType) (cur : ℚ) (idx : ℕ),
      (∀ h ∈ hts, 0 ≤ h.width) →
      chainFits s avail (cur - 5) hts → 5 ≤ cur →
      ∀ p ∈ placeLoop T coords cum s side hts cur idx,
        5 ≤ p.distance ∧ p.distance + p.houseType.width ≤ avail + 5 := by
  intro hts
  induction hts with
  | nil => intro cur idx _ _ _ p hp; simp [placeLoop] at hp
  | cons ht rest ih =>
      intro cur idx hw hchain hcur p hp
      obtain ⟨hfit, hchain2⟩ := hchain
      have hw0 : 0 ≤ ht.width := hw ht (List.mem_cons_self ht rest)
      have hwr : ∀ h ∈ rest, 0 ≤ h.width :=
        fun h hh => hw h (List.mem_cons_of_mem _ hh)
      have hchain3 : chainFits s avail (cur + ht.width + s - 5) rest := by
        have : cur + ht.width + s - 5 = cur - 5 + ht.width + s := by ring
        rw [this]; exact hchain2
      have hcur2 : 5 ≤ cur + ht.width + s := by linarith
      rw [placeLoop] at hp
      cases hI : interpolatePositionAtDistance T coords cum cur with
      | some ipt =>
          rw [hI] at hp
          rcases List.mem_cons.mp hp with rfl | hp2
          · exact ⟨hcur, by simpa using by linarith⟩
          · exact ih _ (idx + 1) hwr hchain3 hcur2 p hp2
      | none =>
          rw [hI] at hp
          exact ih _ (idx + 1) hwr hchain3 hcur2 p hp

/-! ### Properties of the segment search -/

theorem segSearch_some (target : ℚ) :
    ∀ (l : List ℚ) (i0 j : ℕ), segSearch target l i0 = some j →
      i0 ≤ j ∧ j - i0 < l.length ∧ target ≤ l.getD (j - i0) 0 ∧
        ∀ k, k < j - i0 → l.getD k 0 < target := by
  intro l
  induction l with
  | nil => intro i0 j h; simp [segSearch] at h
  | cons c rest ih =>
      intro i0 j h
      rw [segSearch] at h
      by_cases hc : target ≤ c
      · rw [if_pos hc] at h
        obtain rfl : i0 = j := Option.some.inj h
        refine ⟨le_refl _, by simp, by simpa using hc, ?_⟩
        intro k hk
        omega
      · rw [if_neg hc] at h
        obtain ⟨h1, h2, h3, h4⟩ := ih (i0 + 1) j h
        have heq : j - i0 = j - (i0 + 1) + 1 := by omega
        refine ⟨by omega, by simp; omega, ?_, ?_⟩
        · rw [heq]
          simpa using h3
        · intro k hk
          cases k with
          | zero => simpa using lt_of_not_le hc
          | succ m =>
              have := h4 m (by omega)
              simpa using this

theorem segSearch_none (target : ℚ) :
    ∀ (l : List ℚ) (i0 : ℕ), segSearch target l i0 = none → ∀ x ∈ l, x < target := by
  intro l
  induction l with
  | nil => intro i0 _ x hx; simp at hx
  | cons c rest ih =>
      intro i0 h x hx
      rw [segSearch] at h
      by_cases hc : target ≤ c
      · rw [if_pos hc] at h; exact absurd h (by simp)
      · rw [if_neg hc] at h
        rcases List.mem_cons.mp hx with rfl | hx2
        · exact lt_of_not_le hc
        · exact ih (i0 + 1) h x hx2

theorem getD_drop_one (l : List ℚ) (m : ℕ) :
    (l.drop 1).getD m 0 = l.getD (m + 1) 0 := by
  cases l with
  | nil => simp
  | cons a rest => simp [List.getD]

theorem getLastD_mem_of_ne_nil : ∀ (l : List ℚ), l ≠ [] → ∀ d : ℚ, l.getLastD d ∈ l := by
  intro l
  induction l with
  | nil => intro h; exact absurd rfl h
  | cons a rest ih =>
      intro _ d
      cases hrest : rest with
      | nil => simp
      | cons b rest2 =>
          rw [List.getLastD_cons]
          rw [hrest] at ih
          exact List.mem_cons_of_mem a (by simpa using ih (by simp) a)

theorem cumulativeDistancesOf_ne_nil (T : Geo) (coords : List Pt) :
    cumulativeDistancesOf T coords ≠ [] := by
  unfold cumulativeDistancesOf
  cases coords.zip (coords.drop 1) <;> simp [List.scanl]

theorem cumulativeDistancesOf_head (T : Geo) (coords : List Pt) :
    (cumulativeDistancesOf T coords).getD 0 0 = 0 := by
  unfold cumulativeDistancesOf
  cases coords.zip (coords.drop 1) <;> simp [List.scanl]

theorem cumulativeDistancesOf_length (T : Geo) (coords : List Pt) :
    (cumulativeDistancesOf T coords).length = (coords.zip (coords.drop 1)).length + 1 := by
  unfold cumulativeDistancesOf
  exact List.length_scanl 0 _

/-! ### Properties of the collision loop -/

theorem checkRoadsLoop_false (T : Geo) (hp : List Pt) (defB : ℚ) (excl : Int) :
    ∀ (roads : List RoadFeature) (i0 : ℕ),
      checkRoadsLoop T hp defB excl roads i0 = false →
      ∀ j, j < roads.length → ((i0 + j : ℕ) : Int) ≠ excl →
        ∀ rb, T.bufferM (lineCoords (roads.getD j emptyRoadFeature).geometry)
            (roadBufferMeters defB (roads.getD j emptyRoadFeature).layer) = some rb →
          T.intersectsB hp rb = false := by
  intro roads
  induction roads with
  | nil => intro i0 _ j hj; simp at hj
  | cons road rest ih =>
      intro i0 hfalse j hj hne rb hrb
      rw [checkRoadsLoop] at hfalse
      by_cases hskip : (i0 : Int) = excl
      · rw [if_pos hskip] at hfalse
        cases j with
        | zero => exact absurd (by simpa using hskip) hne
        | succ m =>
            have := ih (i0 + 1) hfalse m (by simpa using Nat.lt_of_succ_lt_succ hj)
              (by convert hne using 2; omega)
            exact this rb (by simpa using hrb)
      · rw [if_neg hskip] at hfalse
        cases hbuf : T.bufferM (lineCoords road.geometry)
            (roadBufferMeters defB road.layer) with
        | none =>
            rw [hbuf] at hfalse
            cases j with
            | zero =>
                rw [List.getD_cons_zero] at hrb
                rw [hbuf] at hrb
                exact absurd hrb (by simp)
            | succ m =>
                have := ih (i0 + 1) hfalse m (by simpa using Nat.lt_of_succ_lt_succ hj)
                  (by convert hne using 2; omega)
                exact this rb (by simpa using hrb)
        | some rb0 =>
            simp only [hbuf] at hfalse
            by_cases hint : T.intersectsB hp rb0
            · rw [if_pos hint] at hfalse
              exact absurd hfalse (by simp)
            · rw [if_neg hint] at hfalse
              cases j with
              | zero =>
                  rw [List.getD_cons_zero] at hrb
                  rw [hbuf] at hrb
                  obtain rfl : rb0 = rb := Option.some.inj hrb
                  exact Bool.eq_false_iff.mpr (fun hc => hint hc)
              | succ m =>
                  have := ih (i0 + 1) hfalse m (by simpa using Nat.lt_of_succ_lt_succ hj)
                    (by convert hne using 2; omega)
                  exact this rb (by simpa using hrb)

theorem checkRoadsLoop_false_of_bufferM_none (T : Geo) (hp : List Pt) (defB : ℚ)
    (excl : Int) :
    ∀ (roads : List RoadFeature) (i0 : ℕ),
      (∀ j, j < roads.length → ((i0 + j : ℕ) : Int) ≠ excl →
        T.bufferM (lineCoords (roads.getD j emptyRoadFeature).geometry)
          (roadBufferMeters defB (roads.getD j emptyRoadFeature).layer) = none) →
      checkRoadsLoop T hp defB excl roads i0 = false := by
  intro roads
  induction roads with
  | nil => intro i0 _; rfl
  | cons road rest ih =>
      intro i0 hnone
      rw [checkRoadsLoop]
      have hrest : ∀ j, j < rest.length → ((i0 + 1 + j : ℕ) : Int) ≠ excl →
          T.bufferM (lineCoords (rest.getD j emptyRoadFeature).geometry)
            (roadBufferMeters defB (rest.getD j emptyRoadFeature).layer) = none := by
        intro j hj hne
        have := hnone (j + 1) (by simpa using Nat.succ_lt_succ hj)
          (by convert hne using 2; omega)
        simpa using this
      by_cases hskip : (i0 : Int) = excl
      · rw [if_pos hskip]
        exact ih (i0 + 1) hrest
      · rw [if_neg hskip]
        have h0 := hnone 0 (by simp) (by simpa using hskip)
        rw [List.getD_cons_zero] at h0
        rw [h0]
        exact ih (i0 + 1) hrest

/-! ### Claim theorems -/

/-- C2 counterexample: with the catalog [houseA (width 8), houseC (width
12)] and draws alternating 0,1,... on a straight 200 m road, the first two
placements on the left side have anchor distances 5 and 18, so their
arc-length distance (13) is strictly less than the sum of their half-widths
plus the 5 m edge spacing (4 + 6 + 5 = 15): the claimed spacing bound
fails when the later house is wider than the earlier one. -/
theorem consecutive_spacing_halfwidth_counterexample :
    2 ≤ altPositions.length ∧
      (altPositions.getD 1 dummyPos).distance - (altPositions.getD 0 dummyPos).distance <
        (altPositions.getD 0 dummyPos).houseType.width / 2 +
          (altPositions.getD 1 dummyPos).houseType.width / 2 + 5 := by
  with_unfolding_all decide

/-- C2 (amended): for every pair of consecutive placements produced by
`calculateHousePositions` for one (road, side), the arc-length distance
between their anchors is at least the EARLIER placement's full width plus
`edgeSpacing` (slots dropped by failed interpolation only increase the
gap).  The originally claimed bound — the sum of the two half-widths plus
the spacing — only coincides with this when the later house is no wider
than the earlier one. -/
theorem consecutive_spacing_width (T : Geo) (houseTypes : List HouseType)
    (edgeSpacing : ℚ) (fuel : ℕ) (rand : ℕ → ℕ) (coords : List Pt)
    (roadLength : ℚ) (side : String) (hne : houseTypes ≠ [])
    (hw : ∀ h ∈ houseTypes, 0 ≤ h.width) (hs : 0 ≤ edgeSpacing) :
    List.Chain'
      (fun p q : HousePosition => p.houseType.width + edgeSpacing ≤ q.distance - p.distance)
      (calculateHousePositions T houseTypes edgeSpacing fuel rand coords roadLength side) := by
  unfold calculateHousePositions
  apply placeLoop_chain T _ _ edgeSpacing side hs
  intro h hh
  exact hw h (drawLoop_mem houseTypes edgeSpacing _ rand hne fuel 0 0 h hh)

/-- C2 amended-claim witness: the concrete alternating run satisfies the
full-width spacing bound on every consecutive pair. -/
theorem consecutive_spacing_width_witness :
    List.Chain'
      (fun p q : HousePosition => p.houseType.width + 5 ≤ q.distance - p.distance)
      altPositions :=
  consecutive_spacing_width flatGeo [houseA, houseC] 5 20 (fun k => k)
    [(0, 0), (200, 0)] 200 "left" (by with_unfolding_all decide)
    (by with_unfolding_all decide) (by norm_num)

/-- C3 counterexample: in spec Scenario 1 (100 m road, single 8 m-wide
template, spacing 5) the first placement's anchor sits exactly at the 5 m
end clearance, but the template is normalized with its horizontal center
at local X = 0, so the footprint corner at the template's minimum local X
(-4) lies at arc-length position 5 - 4 = 1, strictly before the
`endClearanceMeters` = 5 mark: footprints do extend past the start
clearance. -/
theorem footprint_within_clearance_counterexample :
    scenario1Left.length = 7 ∧
      (scenario1Left.getD 0 dummyPos).distance = 5 ∧
      (scenario1Left.getD 0 dummyPos).distance +
          (calculateBounds (scenario1Left.getD 0 dummyPos).houseType.geometry).minX < 5 := by
  with_unfolding_all decide

/-- C3 (amended): every placement's ANCHOR arc-length position lies in
[endClearanceMeters, totalLength − endClearanceMeters]; more precisely
`5 ≤ d` and `d + width ≤ roadLength − 5`, so at the far end even the whole
footprint (anchor + half-width) stays inside the clearance, while at the
near end the footprint may extend up to half its width before the anchor,
down to arc position `5 − width/2`. -/
theorem anchor_within_clearance (T : Geo) (houseTypes : List HouseType)
    (edgeSpacing : ℚ) (fuel : ℕ) (rand : ℕ → ℕ) (coords : List Pt)
    (roadLength : ℚ) (side : String) (hne : houseTypes ≠ [])
    (hw : ∀ h ∈ houseTypes, 0 ≤ h.width) (hs : 0 ≤ edgeSpacing) :
    ∀ p ∈ calculateHousePositions T houseTypes edgeSpacing fuel rand coords roadLength side,
      5 ≤ p.distance ∧ p.distance + p.houseType.width ≤ roadLength - 5 := by
  unfold calculateHousePositions
  intro p hp
  have hmem : ∀ h ∈ drawLoop houseTypes edgeSpacing (roadLength - 10) rand fuel 0 0,
      0 ≤ h.width :=
    fun h hh => hw h (drawLoop_mem houseTypes edgeSpacing _ rand hne fuel 0 0 h hh)
  have hchain : chainFits edgeSpacing (roadLength - 10) ((5 : ℚ) - 5)
      (drawLoop houseTypes edgeSpacing (roadLength - 10) rand fuel 0 0) := by
    have h0 : (5 : ℚ) - 5 = 0 := by norm_num
    rw [h0]
    exact drawLoop_chainFits houseTypes edgeSpacing _ rand fuel 0 0
  have := placeLoop_bounds T coords (cumulativeDistancesOf T coords) edgeSpacing side
    (roadLength - 10) hs _ 5 0 hmem hchain (le_refl 5) p hp
  refine ⟨this.1, ?_⟩
  have h2 := this.2
  linarith

/-- C3 amended-claim witness at the Scenario 1 run's first placement. -/
theorem anchor_within_clearance_witness :
    5 ≤ (scenario1Left.getD 0 dummyPos).distance ∧
      (scenario1Left.getD 0 dummyPos).distance +
          (scenario1Left.getD 0 dummyPos).houseType.width ≤ 100 - 5 :=
  anchor_within_clearance flatGeo [houseA] 5 20 (fun _ => 0) [(0, 0), (100, 0)] 100
    "left" (by with_unfolding_all decide) (by with_unfolding_all decide) (by norm_num)
    (scenario1Left.getD 0 dummyPos) (by with_unfolding_all decide)

/-- C4: on the straight 100 m road with the single width-8 template and
edge spacing 5, the greedy loop accepts a template exactly while widths
plus internal spacings fit in the 90 m usable length, yielding exactly 7
placements on each side: 8·7 + 5·6 = 86 ≤ 90 while 8·8 + 5·7 = 99 > 90. -/
theorem greedy_budget_scenario1 :
    scenario1Left.length = 7 ∧ scenario1Right.length = 7 ∧
      (8 * 7 + 5 * (7 - 1) : ℚ) ≤ 100 - 2 * 5 ∧
      (100 - 2 * 5 : ℚ) < 8 * 8 + 5 * (8 - 1) := by
  with_unfolding_all decide

/-- C5 counterexample: at the call site's default buffer (6 m), the
tertiary-road buffer is 4 m, which is NOT greater than the 6 m default
buffer used for unclassified roads — the claimed strict chain
primary > secondary > tertiary > default fails at its last link. -/
theorem buffer_monotone_counterexample :
    roadBufferMeters 6 (some "ROAD_TERTIARY") = 4 ∧ roadBufferMeters 6 none = 6 ∧
      roadBufferMeters 6 (some "ROAD_TERTIARY") < roadBufferMeters 6 none := by
  with_unfolding_all decide

/-- C5 (amended): the class-specific buffers are strictly decreasing,
primary (8) > secondary (6) > tertiary (4), but the default buffer used
for unclassified roads at the call site is 6 — equal to the secondary
buffer and strictly greater than the tertiary buffer. -/
theorem buffer_by_class :
    roadBufferMeters 6 (some "ROAD_PRIMARY") = 8 ∧
      roadBufferMeters 6 (some "ROAD_SECONDARY") = 6 ∧
      roadBufferMeters 6 (some "ROAD_TERTIARY") = 4 ∧
      roadBufferMeters 6 none = 6 ∧
      roadBufferMeters 6 (some "ROAD_SECONDARY") < roadBufferMeters 6 (some "ROAD_PRIMARY") ∧
      roadBufferMeters 6 (some "ROAD_TERTIARY") < roadBufferMeters 6 (some "ROAD_SECONDARY") ∧
      roadBufferMeters 6 none = roadBufferMeters 6 (some "ROAD_SECONDARY") := by
  with_unfolding_all decide

/-- Elements surviving a guarded `filterMap` fail the guard. -/
theorem mem_filterMap_guard {α β : Type _} (g : α → β) (p : β → Bool) (l : List α)
    (y : β) (h : y ∈ l.filterMap fun x => if p (g x) = true then none else some (g x)) :
    p y = false := by
  obtain ⟨x, hx, hfx⟩ := List.mem_filterMap.mp h
  by_cases hp : p (g x) = true
  · rw [if_pos hp] at hfx
    exact absurd hfx (by simp)
  · rw [if_neg hp] at hfx
    obtain rfl := Option.some.inj hfx
    exact Bool.eq_false_iff.mpr hp

/-- C1: every house emitted by `generateHousesAlongRoad` passed the
collision check against all road geometries excluding its own source road
(the check returned `false`), and consequently for every other road whose
buffered polygon was actually constructed, the house's world polygon does
not intersect that buffer. -/
theorem no_cross_road_collision (T : Geo) (st : GenState) (fuel : ℕ)
    (road : RoadFeature) (roadIndex : ℕ) (rand : String → ℕ → ℕ) (house : House)
    (hmem : house ∈ generateHousesAlongRoad T st fuel road roadIndex rand) :
    checkHouseRoadCollision T st.allRoadGeometries house 6 (roadIndex : Int) = false ∧
      ∀ hp, housePolygonOf T house = some hp →
        ∀ j, j < st.allRoadGeometries.length → (j : Int) ≠ (roadIndex : Int) →
          ∀ rb, T.bufferM (lineCoords (st.allRoadGeometries.getD j emptyRoadFeature).geometry)
              (roadBufferMeters 6 (st.allRoadGeometries.getD j emptyRoadFeature).layer) =
                some rb →
            T.intersectsB hp rb = false := by
  have hfalse : checkHouseRoadCollision T st.allRoadGeometries house 6
      (roadIndex : Int) = false := by
    unfold generateHousesAlongRoad at hmem
    by_cases hlen : (lineCoords road.geometry).length < 2
    · rw [if_pos hlen] at hmem
      simp at hmem
    · rw [if_neg hlen] at hmem
      obtain ⟨side, hside, hmem2⟩ := List.mem_flatMap.mp hmem
      dsimp only at hmem2
      exact mem_filterMap_guard
        (fun position => createHouseAtPosition T st.roadOffset position position.houseType
          roadIndex (side ++ "_" ++ toString position.index)
          (if side = "left" then -1 else 1))
        (fun h => checkHouseRoadCollision T st.allRoadGeometries h 6 (roadIndex : Int))
        _ house hmem2
  refine ⟨hfalse, ?_⟩
  intro hp hhp j hj hne rb hrb
  unfold checkHouseRoadCollision at hfalse
  by_cases hemp : st.allRoadGeometries.isEmpty = true
  · rw [List.isEmpty_iff] at hemp
    rw [hemp] at hj
    simp at hj
  · rw [if_neg hemp] at hfalse
    simp only [hhp] at hfalse
    exact checkRoadsLoop_false T hp 6 (roadIndex : Int) st.allRoadGeometries 0 hfalse j hj
      (by simpa using hne) rb hrb

def w1State : GenState :=
  { initState with
    houseTypes := [houseA]
    roads := [road100]
    allRoadGeometries := [road100] }

def w1Houses : List House :=
  generateHousesAlongRoad flatGeo w1State 20 road100 0 (fun _ _ => 0)

/-- C1 witness: the first house generated along the single 100 m road. -/
theorem no_cross_road_collision_witness :
    checkHouseRoadCollision flatGeo w1State.allRoadGeometries (w1Houses.getD 0 dummyHouse) 6
        ((0 : ℕ) : Int) = false :=
  (no_cross_road_collision flatGeo w1State 20 road100 0 (fun _ _ => 0)
    (w1Houses.getD 0 dummyHouse) (by with_unfolding_all decide)).1

/-- C6: a road whose centerline has fewer than 2 points yields no houses,
and (for a catalog of positive-width templates) so does a road whose
length leaves zero or negative usable length after the two 5 m end
clearances; in both cases the result is the empty list, not a failure. -/
theorem degenerate_road_empty (T : Geo) (st : GenState) (fuel : ℕ)
    (road : RoadFeature) (roadIndex : ℕ) (rand : String → ℕ → ℕ) :
    ((lineCoords road.geometry).length < 2 →
        generateHousesAlongRoad T st fuel road roadIndex rand = []) ∧
      (calculateRoadLength T (lineCoords road.geometry) - 10 ≤ 0 →
        (∀ h ∈ st.houseTypes, 0 < h.width) →
        generateHousesAlongRoad T st fuel road roadIndex rand = []) := by
  constructor
  · intro hlen
    unfold generateHousesAlongRoad
    rw [if_pos hlen]
  · intro havail hw
    unfold generateHousesAlongRoad
    by_cases hlen : (lineCoords road.geometry).length < 2
    · rw [if_pos hlen]
    · rw [if_neg hlen]
      have hdraw : ∀ side : String,
          drawLoop st.houseTypes st.edgeSpacing
            (calculateRoadLength T (lineCoords road.geometry) - 10) (rand side) fuel 0 0
            = [] :=
        fun side =>
          drawLoop_nil_of_nonpos st.houseTypes st.edgeSpacing _ (rand side) havail hw
            fuel 0 0 (le_refl 0)
      simp [calculateHousePositions, hdraw, placeLoop]

def singlePointRoad : RoadFeature :=
  { geometry := GeoGeometry.lineString [(0, 0)], layer := none }

def road8 : RoadFeature :=
  { geometry := GeoGeometry.lineString [(0, 0), (8, 0)], layer := none }

def w6State : GenState :=
  { initState with
    houseTypes := [houseA]
    roads := [singlePointRoad, road8]
    allRoadGeometries := [singlePointRoad, road8] }

/-- C6 witness: a 1-point centerline and an 8 m road (usable length -2)
both produce the empty list. -/
theorem degenerate_road_empty_witness :
    generateHousesAlongRoad flatGeo w6State 20 singlePointRoad 0 (fun _ _ => 0) = [] ∧
      generateHousesAlongRoad flatGeo w6State 20 road8 1 (fun _ _ => 0) = [] :=
  ⟨(degenerate_road_empty flatGeo w6State 20 singlePointRoad 0 (fun _ _ => 0)).1
      (by with_unfolding_all decide),
    (degenerate_road_empty flatGeo w6State 20 road8 1 (fun _ _ => 0)).2
      (by with_unfolding_all decide) (by with_unfolding_all decide)⟩

def mixedState : GenState :=
  { initState with
    houseTypes := [houseA, houseZero, houseC]
    roads := [road100]
    allRoadGeometries := [road100] }

/-- A run over the catalog [houseA (8 m), houseZero (0 m, malformed),
houseC (12 m)] with cyclic draws 0,1,2,... on the 100 m road. -/
def mixedRun : List House :=
  generateHousesAlongRoad flatGeo mixedState 20 road100 0 (fun _ k => k % 3)

/-- C7 counterexample: a zero-width (malformed) template in the catalog is
NOT skipped — houses instantiated from it appear in the output (here at
output index 1, among valid width-8 houses). -/
theorem malformed_template_counterexample :
    (mixedRun.getD 1 dummyHouse).width = 0 ∧
      mixedRun.getD 1 dummyHouse ∈ mixedRun ∧
      (mixedRun.getD 0 dummyHouse).width = 8 := by
  with_unfolding_all decide

/-- C7 (amended): the layout operation does not throw, and valid templates
are placed, but malformed templates are not skipped with a warning: a
GeoJSON template that cannot be parsed is substituted by the rectangular
fallback house at load time, and a zero-width template present in the
catalog is drawn and placed like any other, appearing in the output. -/
theorem malformed_template_amended :
    parseHouseGeoJSON { features := [] } 2 = createFallbackHouse 2 ∧
      0 < (createFallbackHouse 2).width ∧
      mixedRun.length = 16 ∧
      (mixedRun.getD 0 dummyHouse).width = 8 ∧
      (mixedRun.getD 2 dummyHouse).width = 12 ∧
      (mixedRun.getD 1 dummyHouse).width = 0 := by
  with_unfolding_all decide

/-- C8: `generateHousesAlongRoads` is deterministic given its injected
random source and touches no state outside its explicit inputs: invoking
it again, from the state produced by a first invocation, with the same
roads, options and random source, reproduces the identical state and the
identical feature list. -/
theorem layout_idempotent (T : Geo) (fuel : ℕ) (st : GenState)
    (roads : List RoadFeature) (options : GenOptions)
    (rand : ℕ → String → ℕ → ℕ) :
    generateHousesAlongRoads T fuel
        (generateHousesAlongRoads T fuel st roads options rand).1 roads options rand =
      generateHousesAlongRoads T fuel st roads options rand := by
  cases hst : st.houseTypes with
  | nil => simp [generateHousesAlongRoads, generateHouses, setRoads, hst, fallbackCatalog]
  | cons a l => simp [generateHousesAlongRoads, generateHouses, setRoads, hst]

/-- A polyline whose first segment has zero length (coincident points). -/
def zigCoords : List Pt := [(0, 0), (0, 0), (10, 0)]

def zigCum : List ℚ := cumulativeDistancesOf flatGeo zigCoords

/-- C9 counterexample: at target distance 0 on a polyline starting with a
zero-length segment, the zero-length branch of
`interpolatePositionAtDistance` computes the bearing between the two
COINCIDENT endpoints of the degenerate segment itself, returning bearing 0
— not the bearing (90) of the next non-zero-length segment as claimed. -/
theorem zero_segment_counterexample :
    interpolatePositionAtDistance flatGeo zigCoords zigCum 0 =
        some { lng := 0, lat := 0, bearing := 0, houseAngle := 90 } ∧
      flatGeo.bearing (0, 0) (10, 0) = 90 ∧ ((0 : ℚ) < 90) := by
  with_unfolding_all decide

/-- C9 (amended): for every target distance with `0 < target ≤ total`, the
segment search of `interpolatePositionAtDistance` never selects a
zero-length segment: the selected segment strictly contains the target
(`cum[i] < target ≤ cum[i+1]`), so the bearing is taken from a segment of
positive length and the zero-length branch is unreachable there.  The
zero-length branch itself (reachable only for `target ≤ 0` or
`target > total`) uses the bearing between the coincident points of the
degenerate segment, not the next non-zero segment. -/
theorem zero_segment_search (T : Geo) (coords : List Pt) (target : ℚ)
    (hpos : 0 < target)
    (hle : target ≤ (cumulativeDistancesOf T coords).getLastD 0)
    (hlen : 2 ≤ coords.length) :
    (cumulativeDistancesOf T coords).getD
        (segmentIndexOf (cumulativeDistancesOf T coords) target) 0 < target ∧
      target ≤ (cumulativeDistancesOf T coords).getD
        (segmentIndexOf (cumulativeDistancesOf T coords) target + 1) 0 := by
  have hculen : (cumulativeDistancesOf T coords).length = coords.length := by
    rw [cumulativeDistancesOf_length]
    rw [List.length_zip, List.length_drop]
    omega
  cases hS : segSearch target ((cumulativeDistancesOf T coords).drop 1) 1 with
  | none =>
      exfalso
      have hall := segSearch_none target _ 1 hS
      cases hc : cumulativeDistancesOf T coords with
      | nil => exact cumulativeDistancesOf_ne_nil T coords hc
      | cons c0 cs =>
          have hcs : cs ≠ [] := by
            intro hnil
            rw [hc, hnil] at hculen
            simp at hculen
            omega
          rw [hc] at hle
          rw [List.getLastD_cons] at hle
          have hmem : cs.getLastD c0 ∈ cs := getLastD_mem_of_ne_nil cs hcs c0
          have := hall (cs.getLastD c0) (by rw [hc]; simpa using hmem)
          linarith
  | some j =>
      obtain ⟨h1, h2, h3, h4⟩ := segSearch_some target _ 1 j hS
      have hsi : segmentIndexOf (cumulativeDistancesOf T coords) target = j - 1 := by
        unfold segmentIndexOf
        rw [hS]
      rw [hsi]
      constructor
      · rcases Nat.lt_or_ge 1 j with hj1 | hj1
        · have hje : j - 1 = (j - 2) + 1 := by omega
          rw [hje, ← getD_drop_one]
          exact h4 (j - 2) (by omega)
        · have hj : j = 1 := by omega
          rw [hj]
          show (cumulativeDistancesOf T coords).getD 0 0 < target
          rw [cumulativeDistancesOf_head]
          exact hpos
      · have hje : j - 1 + 1 = j := by omega
        rw [hje]
        have h3b : target ≤ (cumulativeDistancesOf T coords).getD ((j - 1) + 1) 0 := by
          rw [← getD_drop_one]
          exact h3
        rw [hje] at h3b
        exact h3b

/-- C9 amended-claim witness: on `zigCoords` at anchor distance 5, the
search lands on the positive-length segment (cum 0 < 5 ≤ 10). -/
theorem zero_segment_search_witness :
    (cumulativeDistancesOf flatGeo zigCoords).getD
        (segmentIndexOf (cumulativeDistancesOf flatGeo zigCoords) 5) 0 < 5 ∧
      5 ≤ (cumulativeDistancesOf flatGeo zigCoords).getD
        (segmentIndexOf (cumulativeDistancesOf flatGeo zigCoords) 5 + 1) 0 :=
  zero_segment_search flatGeo zigCoords 5 (by norm_num)
    (by with_unfolding_all decide) (by with_unfolding_all decide)

/-- C10: the collision check fails open.  If the house polygon cannot be
constructed (the outer try/catch path), the check returns `false` — no
collision — regardless of the roads; and if the buffered polygon of every
non-excluded road fails to construct (the inner per-road catch path), the
check also returns `false`, so the candidate is emitted without having
been verified against any road buffer. -/
theorem collision_check_fails_open (T : Geo) (roads : List RoadFeature)
    (house : House) (defB : ℚ) (excl : Int) :
    (housePolygonOf T house = none →
        checkHouseRoadCollision T roads house defB excl = false) ∧
      ((∀ j, j < roads.length → ((j : ℕ) : Int) ≠ excl →
          T.bufferM (lineCoords (roads.getD j emptyRoadFeature).geometry)
            (roadBufferMeters defB (roads.getD j emptyRoadFeature).layer) = none) →
        checkHouseRoadCollision T roads house defB excl = false) := by
  constructor
  · intro hnone
    unfold checkHouseRoadCollision
    by_cases hemp : roads.isEmpty = true
    · rw [if_pos hemp]
    · rw [if_neg hemp]
      simp only [hnone]
  · intro hall
    unfold checkHouseRoadCollision
    by_cases hemp : roads.isEmpty = true
    · rw [if_pos hemp]
    · rw [if_neg hemp]
      cases hhp : housePolygonOf T house with
      | none => simp only [hhp]
      | some hp =>
          simp only [hhp]
          exact checkRoadsLoop_false_of_bufferM_none T hp defB excl roads 0
            (fun j hj hne => hall j hj (by simpa using hne))

/-- A geometry model in which every buffer construction throws. -/
def noBufGeo : Geo := { flatGeo with bufferM := fun _ _ => none }

/-- C10 witness: with all buffer constructions failing, the check on
`road200` (not excluded: exclude index -1) returns no collision; and with
a house whose geometry is empty (so the house polygon construction
throws), the check also returns no collision. -/
theorem collision_check_fails_open_witness :
    checkHouseRoadCollision noBufGeo [road200] dummyHouse 6 (-1) = false ∧
      checkHouseRoadCollision flatGeo [road200] dummyHouse 6 0 = false :=
  ⟨(collision_check_fails_open noBufGeo [road200] dummyHouse 6 (-1)).2
      (fun _ _ _ => rfl),
    (collision_check_fails_open flatGeo [road200] dummyHouse 6 0).1 rfl⟩


end HouseGen
